import Mathlib

/-!
Shallow embedding of the AI pedestrian shopping system and the grid query
layer of the isometric-city repository
(src/components/game/aiPedestrianSystem.ts, src/components/game/gridFinders.ts,
configuration from the AI_PEDESTRIAN_CONFIG object).

Modelling conventions:
- JavaScript numbers are modelled as rationals (ℚ); tile indices as integers (ℤ).
  All the verified claims are about clamping, comparisons and exact rational
  arithmetic, which the float code performs on values where these operations
  are exact or where the spec itself only claims approximate values.
- Calls to Math.random() are modelled as explicit parameters carrying the drawn
  value, with the hypothesis 0 ≤ r < 1 where a theorem needs it.
- JavaScript truthiness on an optional numeric field (`x || d`, `if (x)`) is
  modelled by the jsOrQ / jsOrOQ / jsTruthyOQ helpers: a field is falsy when it
  is missing (none) or equal to 0.
- The Tile record always carries a building record (empty land is the grass
  building in this code base), so the source's `tile.building &&` truthiness
  guard is vacuous and the building field is not optional here.
-/

/-- Building type tags used by the embedded operations (subset of the
repository's BuildingType string-literal union that the embedded functions
inspect). -/
inductive BuildingType where
  | house_small | house_medium | mansion | apartment_low | apartment_high
  | school | university
  | shop_small | shop_medium | office_low | office_high | mall
  | factory_small | factory_medium | factory_large | warehouse
  | hospital | airport | police_station | fire_station
  | marina_docks_small | pier_large
  | park | park_large | tennis | basketball_courts | playground_small
  | playground_large | baseball_field_small | soccer_field_small
  | football_field | baseball_stadium | community_center | swimming_pool
  | skate_park | mini_golf_course | bleachers_field | go_kart_track
  | amphitheater | greenhouse_garden | animal_pens_farm | cabin_house
  | campground | roller_coaster_small | community_garden | pond_park
  | park_gate | mountain_lodge | mountain_trailhead
  | water | road | grass
deriving DecidableEq, Repr

/-- Building record on a tile: type tag plus the flags read by the finders. -/
structure Building where
  type : BuildingType
  onFire : Bool
  powered : Bool
  abandoned : Bool
  constructionProgress : ℚ
  population : ℚ
deriving DecidableEq, Repr

/-- Grid cell. Fields of the source Tile record that no embedded operation
reads (zone tag, subway flag) are omitted. -/
structure Tile where
  building : Building
deriving DecidableEq, Repr

/-- Default tile used when indexing out of the list bounds; every embedded
access is guarded in range exactly as in the source, so this default is never
produced on the inputs the source accepts. -/
def defaultTile : Tile :=
  { building := { type := BuildingType.grass, onFire := false, powered := false,
                  abandoned := false, constructionProgress := 0, population := 0 } }

/-- The grid is a row-indexed list of lists of tiles, `grid[a][b]`. -/
abbrev Grid := List (List Tile)

/-- Grid coordinate pair; the source's `{ x, y }` objects are pairs `(x, y)`. -/
abbrev Coord := ℤ × ℤ

/-- Indexing with a JS-style integer subscript: in-range gives the element,
anything else gives the default. -/
def listGetI {α : Type} (l : List α) (i : ℤ) (d : α) : α :=
  if 0 ≤ i then l.getD i.toNat d else d

/-- Access `grid[a][b]` (outer index first, as written at each call site). -/
def gridCell (grid : Grid) (a b : ℤ) : Tile :=
  listGetI (listGetI grid a []) b defaultTile

/-- Integer range `[lo, hi)`, the index set of a `for (i = lo; i < hi; i++)`
loop. -/
def intRange (lo hi : ℤ) : List ℤ :=
  List.map (fun (i : ℕ) => lo + (i : ℤ)) (List.range (hi - lo).toNat)

theorem mem_intRange {lo hi a : ℤ} : a ∈ intRange lo hi ↔ lo ≤ a ∧ a < hi := by
  unfold intRange
  rw [List.mem_map]
  constructor
  · rintro ⟨i, hmem, rfl⟩
    rw [List.mem_range] at hmem
    omega
  · rintro ⟨h1, h2⟩
    refine ⟨(a - lo).toNat, ?_, ?_⟩
    · rw [List.mem_range]; omega
    · omega

theorem length_intRange (lo hi : ℤ) : (intRange lo hi).length = (hi - lo).toNat := by
  rw [intRange, List.length_map, List.length_range]

/-- JS `x || d` on a present numeric field: `d` when the value is 0, the value
otherwise. -/
def jsOrQ (x d : ℚ) : ℚ := if x = 0 then d else x

/-- JS `x || d` on an optional numeric field. -/
def jsOrOQ (x : Option ℚ) (d : ℚ) : ℚ :=
  match x with
  | none => d
  | some v => jsOrQ v d

/-- JS truthiness of an optional numeric field (`if (x)`, `!x`). -/
def jsTruthyOQ (x : Option ℚ) : Bool :=
  match x with
  | none => false
  | some v => decide (v ≠ 0)

/-- The five AI pedestrian archetypes (enum AIPedestrianType). -/
inductive AIPedestrianType where
  | worker | shopper | tourist | commuter | leisurer
deriving DecidableEq, Repr

/-- Shopping activity tags stored in `pedestrian.shoppingActivity`. -/
inductive ShoppingActivity where
  | browsing | paying | carrying_bags
deriving DecidableEq, Repr

/-- Mutable pedestrian record: the fields of the source Pedestrian that the
shopping subsystem reads or writes. Fields the source reads through an
explicit undefined-guard are Option-valued. -/
structure Pedestrian where
  tileX : ℤ
  tileY : ℤ
  isAI : Bool
  aiType : Option AIPedestrianType
  isShopping : Bool
  shoppingProgress : Option ℚ
  shoppingDuration : ℚ
  currentShopX : Option ℤ
  currentShopY : Option ℤ
  shoppingActivity : Option ShoppingActivity
  shoppingBudget : Option ℚ
  itemsBought : ℤ
  shopVisitsToday : ℤ
  lastShoppingTime : ℚ
  satisfactionLevel : ℚ
  totalMoneySpent : ℚ
  hasBag : Bool
deriving DecidableEq, Repr

namespace AI_PEDESTRIAN_CONFIG

/-- shopping.satisfactionMultiplier = 0.3 -/
def satisfactionMultiplier : ℚ := 3 / 10
/-- shopping.budgetMultiplier = 0.2 -/
def budgetMultiplier : ℚ := 1 / 5
/-- shopping.minDuration = 10 seconds -/
def minDuration : ℚ := 10
/-- shopping.maxDuration = 30 seconds -/
def maxDuration : ℚ := 30
/-- shopping.minBudget = 500 -/
def minBudget : ℚ := 500
/-- shopping.maxBudget = 2000 -/
def maxBudget : ℚ := 2000
/-- shopping.satisfactionGainPerPurchase = 0.3 -/
def satisfactionGainPerPurchase : ℚ := 3 / 10
/-- shopping.satisfactionDecayRate = 0.01 per second -/
def satisfactionDecayRate : ℚ := 1 / 100
/-- economy.averageItemPrice = 50 -/
def averageItemPrice : ℚ := 50
/-- navigation.searchRange = 10 tiles -/
def searchRange : ℤ := 10
/-- animation.browsingSwayAmount = 5 -/
def browsingSwayAmount : ℚ := 5
/-- animation.payingShakeAmount = 2 -/
def payingShakeAmount : ℚ := 2

end AI_PEDESTRIAN_CONFIG

/-- Per-archetype base shopping probability (getShoppingProbabilityByType). -/
def getShoppingProbabilityByType (type : AIPedestrianType) : ℚ :=
  match type with
  | AIPedestrianType.shopper => 1 / 2
  | AIPedestrianType.worker => 3 / 20
  | AIPedestrianType.commuter => 1 / 5
  | AIPedestrianType.tourist => 3 / 10
  | AIPedestrianType.leisurer => 1 / 10

/-- Commercial building types searched by findNearestShop
(aiPedestrianSystem.ts, local `commercialTypes` array). -/
def navCommercialTypes : List BuildingType :=
  [BuildingType.shop_small, BuildingType.shop_medium, BuildingType.mall,
   BuildingType.office_low, BuildingType.office_high]

/-- One random draw per randomness consumer of a tick, plus the wall clock
read by Date.now(). -/
structure TickRand where
  triggerRand : ℚ
  durationRand : ℚ
  itemsRand : ℚ
  now : ℚ

/-- Squared distance computed in the findNearestShop scan body. -/
def shopDistSq (tx ty : ℤ) (c : Coord) : ℤ :=
  (c.1 - tx) ^ 2 + (c.2 - ty) ^ 2

/-- Loop body of findNearestShop: on a commercial tile closer than the
running minimum, replace the candidate and the minimum. -/
def nearestShopStep (grid : Grid) (tx ty : ℤ) (acc : Option Coord × ℤ) (c : Coord) :
    Option Coord × ℤ :=
  if (gridCell grid c.1 c.2).building.type ∈ navCommercialTypes then
    if shopDistSq tx ty c < acc.2 then (some c, shopDistSq tx ty c) else acc
  else acc

/-- Row-major cell list of the findNearestShop double loop: x from
max(0, tx - range) below min(grid.length, tx + range), y from
max(0, ty - range) below min(grid[0].length, ty + range). -/
def shopScanCells (grid : Grid) (searchRange tx ty : ℤ) : List Coord :=
  (intRange (max 0 (tx - searchRange)) (min (grid.length : ℤ) (tx + searchRange))).flatMap
    (fun x =>
      (intRange (max 0 (ty - searchRange))
          (min ((grid.getD 0 []).length : ℤ) (ty + searchRange))).map
        (fun y => (x, y)))

/-- findNearestShop generalised over the search range the source reads from
AI_PEDESTRIAN_CONFIG.navigation.searchRange; the nested for loops are one fold
of the body over the row-major scanned cells, the running minimum starting at
searchRange squared, and `tile.building &&` is vacuous (see the header
notes). -/
def findNearestShopR (searchRange : ℤ) (p : Pedestrian) (grid : Grid) : Option Coord :=
  ((shopScanCells grid searchRange p.tileX p.tileY).foldl
    (nearestShopStep grid p.tileX p.tileY) (none, searchRange * searchRange)).1

/-- findNearestShop as called by the source, at the configured range. -/
def findNearestShop (p : Pedestrian) (grid : Grid) : Option Coord :=
  findNearestShopR AI_PEDESTRIAN_CONFIG.searchRange p grid

/-- shouldGoShopping, with the Math.random() draw as parameter `r`; returns
whether `r < min(0.5, totalProbability)` after the truthiness guard on aiType
and shoppingBudget. -/
def shouldGoShopping (p : Pedestrian) (r : ℚ) : Bool :=
  match p.aiType with
  | none => false
  | some aiType =>
    if jsTruthyOQ p.shoppingBudget = false then false
    else
      let shoppingProbability := getShoppingProbabilityByType aiType
      let satisfactionFactor :=
        (1 - jsOrQ p.satisfactionLevel (1 / 2)) * AI_PEDESTRIAN_CONFIG.satisfactionMultiplier
      let budgetFactor :=
        min 1 (jsOrOQ p.shoppingBudget 0 / AI_PEDESTRIAN_CONFIG.maxBudget) *
          AI_PEDESTRIAN_CONFIG.budgetMultiplier
      let totalProbability := shoppingProbability + satisfactionFactor + budgetFactor
      decide (r < min (1 / 2) totalProbability)

/-- Field updates of startShoppingActivity before the shop search: shopping
flags set, browsing phase, progress reset, duration drawn uniformly from
[minDuration, maxDuration]. -/
def startShoppingBase (p : Pedestrian) (durationRand : ℚ) : Pedestrian :=
  { p with
    isShopping := true
    shoppingActivity := some ShoppingActivity.browsing
    shoppingProgress := some 0
    shoppingDuration :=
      durationRand * (AI_PEDESTRIAN_CONFIG.maxDuration - AI_PEDESTRIAN_CONFIG.minDuration) +
        AI_PEDESTRIAN_CONFIG.minDuration
    itemsBought := 0 }

/-- startShoppingActivity, with the duration draw as parameter: the field
updates above, then the optional display-only target from findNearestShop. -/
def startShoppingActivity (p : Pedestrian) (grid : Grid) (durationRand : ℚ) : Pedestrian :=
  match findNearestShop (startShoppingBase p durationRand) grid with
  | some c =>
    { startShoppingBase p durationRand with currentShopX := some c.1, currentShopY := some c.2 }
  | none => startShoppingBase p durationRand

/-- completeShoppingActivity, with the item-count draw `itemsRand` (the
Math.random() value, items = floor(r*5)+1) and the Date.now()/1000 clock value
`now` as parameters. -/
def completeShoppingActivity (p : Pedestrian) (itemsRand now : ℚ) : Pedestrian :=
  if p.isShopping = false then p
  else
    let items : ℤ := ⌊itemsRand * 5⌋ + 1
    let spending : ℚ := (items : ℚ) * AI_PEDESTRIAN_CONFIG.averageItemPrice
    let actualSpending : ℚ := min spending (jsOrOQ p.shoppingBudget 0)
    { p with
      shoppingBudget := some (jsOrOQ p.shoppingBudget 0 - actualSpending)
      itemsBought := items
      totalMoneySpent := jsOrQ p.totalMoneySpent 0 + actualSpending
      hasBag := true
      satisfactionLevel :=
        min 1 (jsOrQ p.satisfactionLevel 0 + AI_PEDESTRIAN_CONFIG.satisfactionGainPerPurchase)
      isShopping := false
      shoppingProgress := some 0
      shoppingActivity := none
      lastShoppingTime := now
      shopVisitsToday := p.shopVisitsToday + 1 }

/-- Satisfaction decay block at the top of updateAIPedestrianShopping: behind
the JS truthiness guard on satisfactionLevel, decay by decayRate * deltaTime,
floored at 0. -/
def decaySatisfaction (p : Pedestrian) (deltaTime : ℚ) : Pedestrian :=
  if p.satisfactionLevel ≠ 0 then
    { p with
      satisfactionLevel :=
        max 0 (p.satisfactionLevel - AI_PEDESTRIAN_CONFIG.satisfactionDecayRate * deltaTime) }
  else p

/-- updateAIPedestrianShopping: satisfaction decay behind the truthiness guard,
then either episode progress (completing at progress ≥ 1) or the trigger
check. The source's gameTime parameter is unused there too. -/
def updateAIPedestrianShopping (p : Pedestrian) (grid : Grid) (deltaTime gameTime : ℚ)
    (rnd : TickRand) : Pedestrian :=
  if p.isAI = false then p
  else
    let p1 : Pedestrian := decaySatisfaction p deltaTime
    if p1.isShopping = true ∧ p1.shoppingProgress.isSome then
      let prog := p1.shoppingProgress.getD 0 + deltaTime / jsOrQ p1.shoppingDuration 1
      let p2 : Pedestrian := { p1 with shoppingProgress := some prog }
      if 1 ≤ prog then completeShoppingActivity p2 rnd.itemsRand rnd.now
      else { p2 with hasBag := true }
    else
      if shouldGoShopping p1 rnd.triggerRand then startShoppingActivity p1 grid rnd.durationRand
      else p1

/-- Environment abstracting the transcendental and impure pieces of
getShoppingAnimationOffset: Math.sin, Math.cos, Math.PI and the two
Math.random() draws of the paying branch. -/
structure AnimEnv where
  sin : ℚ → ℚ
  cos : ℚ → ℚ
  pi : ℚ
  rand1 : ℚ
  rand2 : ℚ

/-- Browsing-branch offset of getShoppingAnimationOffset. -/
def browsingOffset (env : AnimEnv) (progress : ℚ) : ℚ × ℚ :=
  (env.sin (progress * env.pi * 4) * AI_PEDESTRIAN_CONFIG.browsingSwayAmount,
   env.cos (progress * env.pi * 4) * (AI_PEDESTRIAN_CONFIG.browsingSwayAmount * (1 / 2)))

/-- Paying-branch offset of getShoppingAnimationOffset. -/
def payingOffset (env : AnimEnv) : ℚ × ℚ :=
  ((env.rand1 - 1 / 2) * AI_PEDESTRIAN_CONFIG.payingShakeAmount,
   (env.rand2 - 1 / 2) * AI_PEDESTRIAN_CONFIG.payingShakeAmount)

/-- Carrying-bags-branch offset of getShoppingAnimationOffset. -/
def carryingBagsOffset (env : AnimEnv) (progress : ℚ) : ℚ × ℚ :=
  (env.sin (progress * env.pi * 6) * 2, env.cos (progress * env.pi * 3) * 1)

/-- getShoppingAnimationOffset: switch on the stored shoppingActivity. -/
def getShoppingAnimationOffset (env : AnimEnv) (p : Pedestrian) (progress : ℚ) : ℚ × ℚ :=
  if p.isShopping = false then (0, 0)
  else
    match p.shoppingActivity with
    | some ShoppingActivity.browsing => browsingOffset env progress
    | some ShoppingActivity.paying => payingOffset env
    | some ShoppingActivity.carrying_bags => carryingBagsOffset env progress
    | none => (0, 0)

/-- Formalisation of the progress-band sub-state assignment asserted by claim
C3 and by the repository's own implementation notes (browsing below 0.3,
paying from 0.3 to 0.7, leaving / carrying bags from 0.7), stated for
comparison with the code. No provided source writes these transitions: the
only writes to `shoppingActivity` are the browsing tag at episode start and
the clearing at completion; updateAIPedestrians of aiPedestrianIntegration
only copies the offset of the stored activity into the render fields. -/
def claimActivityForProgress (progress : ℚ) : ShoppingActivity :=
  if progress < 3 / 10 then ShoppingActivity.browsing
  else if progress < 7 / 10 then ShoppingActivity.paying
  else ShoppingActivity.carrying_bags

/-- RESIDENTIAL_BUILDING_TYPES set from gridFinders.ts. -/
def RESIDENTIAL_BUILDING_TYPES : List BuildingType :=
  [BuildingType.house_small, BuildingType.house_medium, BuildingType.mansion,
   BuildingType.apartment_low, BuildingType.apartment_high]

/-- SCHOOL_TYPES set from gridFinders.ts. -/
def SCHOOL_TYPES : List BuildingType := [BuildingType.school, BuildingType.university]

/-- COMMERCIAL_TYPES set from gridFinders.ts. -/
def COMMERCIAL_TYPES : List BuildingType :=
  [BuildingType.shop_small, BuildingType.shop_medium, BuildingType.office_low,
   BuildingType.office_high, BuildingType.mall]

/-- INDUSTRIAL_TYPES set from gridFinders.ts. -/
def INDUSTRIAL_TYPES : List BuildingType :=
  [BuildingType.factory_small, BuildingType.factory_medium, BuildingType.factory_large,
   BuildingType.warehouse]

/-- PARK_TYPES set from gridFinders.ts. -/
def PARK_TYPES : List BuildingType :=
  [BuildingType.park, BuildingType.park_large, BuildingType.tennis,
   BuildingType.basketball_courts, BuildingType.playground_small,
   BuildingType.playground_large, BuildingType.baseball_field_small,
   BuildingType.soccer_field_small, BuildingType.football_field,
   BuildingType.baseball_stadium, BuildingType.community_center,
   BuildingType.swimming_pool, BuildingType.skate_park, BuildingType.mini_golf_course,
   BuildingType.bleachers_field, BuildingType.go_kart_track, BuildingType.amphitheater,
   BuildingType.greenhouse_garden, BuildingType.animal_pens_farm, BuildingType.cabin_house,
   BuildingType.campground, BuildingType.marina_docks_small, BuildingType.pier_large,
   BuildingType.roller_coaster_small, BuildingType.community_garden, BuildingType.pond_park,
   BuildingType.park_gate, BuildingType.mountain_lodge, BuildingType.mountain_trailhead]

/-- Destination categories of findPedestrianDestinations. -/
inductive PedestrianDestType where
  | school | commercial | industrial | park
deriving DecidableEq, Repr

/-- Heliport host categories of findHeliports. -/
inductive HeliportType where
  | hospital | airport | police | mall
deriving DecidableEq, Repr

/-- Dock categories of findMarinasAndPiers. -/
inductive DockType where
  | marina | pier
deriving DecidableEq, Repr

/-- Row-major scan order of the gridFinders double loops: y outer, x inner,
each producing zero or more results per cell. The JS null-grid guard `!grid`
has no counterpart for a total list value; the `gridSize <= 0` half of the
guard is kept verbatim. -/
def scanCells {α : Type} (gridSize : ℤ) (f : ℤ → ℤ → List α) : List α :=
  (intRange 0 gridSize).flatMap (fun y => (intRange 0 gridSize).flatMap (fun x => f y x))

/-- findResidentialBuildings from gridFinders.ts. -/
def findResidentialBuildings (grid : Grid) (gridSize : ℤ) : List Coord :=
  if gridSize ≤ 0 then []
  else scanCells gridSize (fun y x =>
    if (gridCell grid y x).building.type ∈ RESIDENTIAL_BUILDING_TYPES then [(x, y)] else [])

/-- findPedestrianDestinations from gridFinders.ts. -/
def findPedestrianDestinations (grid : Grid) (gridSize : ℤ) : List (Coord × PedestrianDestType) :=
  if gridSize ≤ 0 then []
  else scanCells gridSize (fun y x =>
    let buildingType := (gridCell grid y x).building.type
    if buildingType ∈ SCHOOL_TYPES then [((x, y), PedestrianDestType.school)]
    else if buildingType ∈ COMMERCIAL_TYPES then [((x, y), PedestrianDestType.commercial)]
    else if buildingType ∈ INDUSTRIAL_TYPES then [((x, y), PedestrianDestType.industrial)]
    else if buildingType ∈ PARK_TYPES then [((x, y), PedestrianDestType.park)]
    else [])

/-- findStations from gridFinders.ts; the source restricts the type argument
to the fire-station or police-station tag. -/
def findStations (grid : Grid) (gridSize : ℤ) (type : BuildingType) : List Coord :=
  if gridSize ≤ 0 then []
  else scanCells gridSize (fun y x =>
    if (gridCell grid y x).building.type = type then [(x, y)] else [])

/-- findFires from gridFinders.ts. -/
def findFires (grid : Grid) (gridSize : ℤ) : List Coord :=
  if gridSize ≤ 0 then []
  else scanCells gridSize (fun y x => if (gridCell grid y x).building.onFire then [(x, y)] else [])

/-- findAirports from gridFinders.ts. -/
def findAirports (grid : Grid) (gridSize : ℤ) : List Coord :=
  if gridSize ≤ 0 then []
  else scanCells gridSize (fun y x =>
    if (gridCell grid y x).building.type = BuildingType.airport then [(x, y)] else [])

/-- findHeliports from gridFinders.ts, including the deterministic
mall-siting hash (x*31 + y*17) mod 100 with acceptance band seed ≥ 50. -/
def findHeliports (grid : Grid) (gridSize : ℤ) : List (Coord × HeliportType × ℤ) :=
  if gridSize ≤ 0 then []
  else scanCells gridSize (fun y x =>
    let buildingType := (gridCell grid y x).building.type
    if buildingType = BuildingType.hospital then [((x, y), HeliportType.hospital, 2)]
    else if buildingType = BuildingType.airport then [((x, y), HeliportType.airport, 4)]
    else if buildingType = BuildingType.police_station then [((x, y), HeliportType.police, 1)]
    else if buildingType = BuildingType.mall then
      let seed := (x * 31 + y * 17) % 100
      if 50 ≤ seed then [((x, y), HeliportType.mall, 3)] else []
    else [])

/-- findMarinasAndPiers from gridFinders.ts. -/
def findMarinasAndPiers (grid : Grid) (gridSize : ℤ) : List (Coord × DockType) :=
  if gridSize ≤ 0 then []
  else scanCells gridSize (fun y x =>
    let buildingType := (gridCell grid y x).building.type
    if buildingType = BuildingType.marina_docks_small then [((x, y), DockType.marina)]
    else if buildingType = BuildingType.pier_large then [((x, y), DockType.pier)]
    else [])

/-- The 8-direction neighbourhood scanned by findAdjacentWaterTile, in source
order. -/
def eightDirections : List (ℤ × ℤ) :=
  [(-1, 0), (1, 0), (0, -1), (0, 1), (-1, -1), (-1, 1), (1, -1), (1, 1)]

/-- findAdjacentWaterTile from gridFinders.ts: first in-bounds water neighbour
of the dock tile in the fixed direction order, else none. -/
def findAdjacentWaterTile (grid : Grid) (gridSize : ℤ) (dockX dockY : ℤ) : Option Coord :=
  if gridSize ≤ 0 then none
  else
    (eightDirections.map (fun d => (dockX + d.1, dockY + d.2))).findSome?
      (fun n =>
        if 0 ≤ n.1 ∧ n.1 < gridSize ∧ 0 ≤ n.2 ∧ n.2 < gridSize then
          if (gridCell grid n.2 n.1).building.type = BuildingType.water then some n else none
        else none)

/-- findSmogFactories from gridFinders.ts. -/
def findSmogFactories (grid : Grid) (gridSize : ℤ) : List (Coord × BuildingType) :=
  if gridSize ≤ 0 then []
  else scanCells gridSize (fun y x =>
    let tile := gridCell grid y x
    let buildingType := tile.building.type
    if (buildingType = BuildingType.factory_medium ∨ buildingType = BuildingType.factory_large) ∧
        tile.building.powered = true ∧ tile.building.abandoned = false ∧
        100 ≤ tile.building.constructionProgress then
      [((x, y), buildingType)]
    else [])

/-- findFireworkBuildings from gridFinders.ts; the source's module-level Set
cache is a semantically transparent memoisation of the membership test and is
dropped. -/
def findFireworkBuildings (grid : Grid) (gridSize : ℤ) (fireworkBuildingTypes : List BuildingType) :
    List (Coord × BuildingType) :=
  if gridSize ≤ 0 then []
  else scanCells gridSize (fun y x =>
    let buildingType := (gridCell grid y x).building.type
    if buildingType ∈ fireworkBuildingTypes then [((x, y), buildingType)] else [])

/-- calculateTotalPopulation from gridFinders.ts; `population || 0` is the
identity on the present numeric field. -/
def calculateTotalPopulation (grid : Grid) (gridSize : ℤ) : ℚ :=
  if gridSize ≤ 0 then 0
  else (scanCells gridSize (fun y x => [jsOrQ (gridCell grid y x).building.population 0])).sum

/-- countRoadTiles from gridFinders.ts. -/
def countRoadTiles (grid : Grid) (gridSize : ℤ) : ℕ :=
  if gridSize ≤ 0 then 0
  else (scanCells gridSize (fun y x =>
    if (gridCell grid y x).building.type = BuildingType.road then [()] else [])).length

/-- BFS working state of findConnectedWaterTiles: visited keys, collected
tiles in discovery order, pending queue. The source keys visited by the string
template of the coordinates, which is injective on integer pairs, so the keys
are the pairs themselves here. -/
structure BfsState where
  visited : List Coord
  tiles : List Coord
  queue : List Coord
deriving DecidableEq, Repr

/-- The 4-direction neighbourhood of the flood fill, in source order. -/
def floodNeighbors (c : Coord) : List Coord :=
  [(c.1 - 1, c.2), (c.1 + 1, c.2), (c.1, c.2 - 1), (c.1, c.2 + 1)]

/-- One-shot translation of the source while loop: dequeue, mark visited,
discard when out of bounds or predicate-false, otherwise collect and enqueue
the unvisited neighbours. The loop in the source terminates because every
enqueued coordinate lies in the finite box around the grid and each pass
either consumes one queue entry or marks one fresh coordinate visited; the
fuel passed by floodFillRegion is an upper bound on that measure, so running
out of fuel is unreachable and the fuel-indexed recursion computes the same
result as the source loop. -/
def floodLoop (grid : Grid) (gridSize : ℤ) (pred : Tile → Bool) (maxTiles : ℕ) :
    ℕ → BfsState → BfsState
  | 0, s => s
  | Nat.succ fuel, s =>
    match s.queue with
    | [] => s
    | c :: rest =>
      if maxTiles ≤ s.tiles.length then s
      else if c ∈ s.visited then
        floodLoop grid gridSize pred maxTiles fuel ⟨s.visited, s.tiles, rest⟩
      else
        let visited := c :: s.visited
        if c.1 < 0 ∨ gridSize ≤ c.1 ∨ c.2 < 0 ∨ gridSize ≤ c.2 then
          floodLoop grid gridSize pred maxTiles fuel ⟨visited, s.tiles, rest⟩
        else if pred (gridCell grid c.2 c.1) = false then
          floodLoop grid gridSize pred maxTiles fuel ⟨visited, s.tiles, rest⟩
        else
          floodLoop grid gridSize pred maxTiles fuel
            ⟨visited, s.tiles ++ [c],
             rest ++ (floodNeighbors c).filter (fun n => decide (n ∉ visited))⟩

/-- Fuel that dominates the BFS loop measure for a square grid of the given
size (see the floodLoop comment). -/
def floodFuel (gridSize : ℤ) : ℕ :=
  5 * (gridSize.toNat + 2) * (gridSize.toNat + 2) + 10

/-- The flood fill of findConnectedWaterTiles generalised over the tile
predicate the source hardcodes to the water building type. -/
def floodFillRegion (grid : Grid) (gridSize : ℤ) (pred : Tile → Bool)
    (startTileX startTileY : ℤ) (maxTiles : ℕ) : List Coord :=
  if gridSize ≤ 0 then []
  else
    (floodLoop grid gridSize pred maxTiles (floodFuel gridSize)
      ⟨[], [], [(startTileX, startTileY)]⟩).tiles

/-- Water predicate of findConnectedWaterTiles. -/
def isWaterTile (t : Tile) : Bool := decide (t.building.type = BuildingType.water)

/-- findConnectedWaterTiles from gridFinders.ts. -/
def findConnectedWaterTiles (grid : Grid) (gridSize : ℤ) (startTileX startTileY : ℤ)
    (maxTiles : ℕ) : List Coord :=
  floodFillRegion grid gridSize isWaterTile startTileX startTileY maxTiles

/-- In-bounds predicate of the flood fill (square grid of the given size). -/
def inBoundsC (gridSize : ℤ) (c : Coord) : Prop :=
  0 ≤ c.1 ∧ c.1 < gridSize ∧ 0 ≤ c.2 ∧ c.2 < gridSize

instance (gridSize : ℤ) (c : Coord) : Decidable (inBoundsC gridSize c) := by
  unfold inBoundsC; infer_instance

/-- A coordinate is a region cell when it is in bounds and its tile satisfies
the predicate. -/
def regionCell (grid : Grid) (gridSize : ℤ) (pred : Tile → Bool) (c : Coord) : Prop :=
  inBoundsC gridSize c ∧ pred (gridCell grid c.2 c.1) = true

/-- One step between 4-connected region cells. -/
def regionStep (grid : Grid) (gridSize : ℤ) (pred : Tile → Bool) (a b : Coord) : Prop :=
  regionCell grid gridSize pred a ∧ regionCell grid gridSize pred b ∧ b ∈ floodNeighbors a

/-- Reachability from the start through a 4-connected path of region cells,
ending in a region cell (covers the one-cell path when the start itself is a
region cell). -/
def reachesFrom (grid : Grid) (gridSize : ℤ) (pred : Tile → Bool) (start c : Coord) : Prop :=
  Relation.ReflTransGen (regionStep grid gridSize pred) start c ∧
    regionCell grid gridSize pred c

/-- Tour waypoint: tile coordinates plus projected render coordinates. -/
structure TourWaypoint where
  screenX : ℚ
  screenY : ℚ
  tileX : ℤ
  tileY : ℤ
deriving DecidableEq, Repr

/-- Modelled from the spec: tile projection width (the ./types constant
TILE_WIDTH is not among the provided sources); no verified claim inspects
screen coordinates. -/
def TILE_WIDTH : ℚ := 64

/-- Modelled from the spec: tile projection height (the ./types constant
TILE_HEIGHT is not among the provided sources). -/
def TILE_HEIGHT : ℚ := 32

/-- Modelled from the spec: grid-to-screen isometric projection (the ./utils
function gridToScreen is not among the provided sources); no verified claim
inspects screen coordinates. -/
def gridToScreen (x y : ℤ) (offsetX offsetY : ℚ) : ℚ × ℚ :=
  (offsetX + ((x : ℚ) - (y : ℚ)) * (TILE_WIDTH / 2),
   offsetY + ((x : ℚ) + (y : ℚ)) * (TILE_HEIGHT / 2))

/-- Waypoint built from a tile, centred on the tile as in the source
(screen + half a tile in each axis). -/
def mkTourWaypoint (t : Coord) : TourWaypoint :=
  let s := gridToScreen t.1 t.2 0 0
  { screenX := s.1 + TILE_WIDTH / 2, screenY := s.2 + TILE_HEIGHT / 2,
    tileX := t.1, tileY := t.2 }

/-- Entry of the tilesWithDist array: tile coordinates plus the index into
waterTiles. The distFromCenter key is omitted: it feeds only the randomised
sort comparator, whose output is modelled as the `ranked` parameter below. -/
structure IdxTile where
  x : ℤ
  y : ℤ
  idx : ℕ
deriving DecidableEq, Repr

/-- The tilesWithDist array in discovery order (before the randomised sort). -/
def indexTiles (tiles : List Coord) : List IdxTile :=
  tiles.enum.map (fun p => { x := p.2.1, y := p.2.2, idx := p.1 })

/-- Squared tile distance between a candidate tile and a waypoint; the
source's Math.hypot(dx, dy) < 3 test is equivalent to dx^2 + dy^2 < 9. -/
def wpDistSqT (t : IdxTile) (w : TourWaypoint) : ℤ :=
  (t.x - w.tileX) ^ 2 + (t.y - w.tileY) ^ 2

/-- One iteration of the spaced selection loop of generateTourWaypoints:
reject a ranked tile whose Euclidean distance to some already accepted
waypoint is below 3 (tooClose), otherwise append its waypoint and record its
used waterTiles index. -/
def tourStep1 (s : List TourWaypoint × List ℕ) (t : IdxTile) : List TourWaypoint × List ℕ :=
  if s.1.any (fun wp => decide (wpDistSqT t wp < 9)) then s
  else (s.1 ++ [mkTourWaypoint (t.x, t.y)], t.idx :: s.2)

/-- Spaced selection phase of generateTourWaypoints: walk the ranked tiles
with tourStep1 starting from no waypoints and no used indices. -/
def tourPhase1 (ranked : List IdxTile) : List TourWaypoint × List ℕ :=
  ranked.foldl tourStep1 ([], [])

/-- One iteration of the supplemental random fill loop: while below the target
count and the region size, append the waypoint of a not-yet-used drawn index
and mark the index used. -/
def tourStep2 (waterTiles : List Coord) (numWaypoints : ℕ)
    (s : List TourWaypoint × List ℕ) (r : ℕ) : List TourWaypoint × List ℕ :=
  if s.1.length < numWaypoints ∧ s.1.length < waterTiles.length then
    if r ∈ s.2 then s
    else (s.1 ++ [mkTourWaypoint (waterTiles.getD r (0, 0))], r :: s.2)
  else s

/-- Supplemental random fill of generateTourWaypoints: the source's rejection
sampling loop, run over an explicit list of random index draws; each draw is
one loop iteration. -/
def tourPhase2 (waterTiles : List Coord) (numWaypoints : ℕ) (draws : List ℕ)
    (s0 : List TourWaypoint × List ℕ) : List TourWaypoint × List ℕ :=
  draws.foldl (tourStep2 waterTiles numWaypoints) s0

/-- generateTourWaypoints from gridFinders.ts. The sort with the randomised,
inconsistent comparator guarantees only some permutation of tilesWithDist
(ECMA-262 leaves the order unspecified for inconsistent comparators), so the
post-sort array is the parameter `ranked`; the Math.random() index draws of
the fill loop are the parameter `draws`. -/
def generateTourWaypoints (grid : Grid) (gridSize : ℤ) (startTileX startTileY : ℤ)
    (ranked : List IdxTile) (draws : List ℕ) : List TourWaypoint :=
  let waterTiles := findConnectedWaterTiles grid gridSize startTileX startTileY 200
  if waterTiles.length < 3 then []
  else
    let numWaypoints := min 6 (max 2 (waterTiles.length / 10))
    (tourPhase2 waterTiles numWaypoints draws (tourPhase1 (ranked.take numWaypoints))).1

/-- An item draw r in [0,1) yields floor(r*5)+1 in [1,5]. -/
theorem items_drawn_bounds {r : ℚ} (h0 : 0 ≤ r) (h1 : r < 1) :
    1 ≤ ⌊r * 5⌋ + 1 ∧ ⌊r * 5⌋ + 1 ≤ 5 := by
  constructor
  · have : (0 : ℤ) ≤ ⌊r * 5⌋ := by
      rw [Int.le_floor]
      push_cast
      nlinarith
    omega
  · have : ⌊r * 5⌋ < 5 := by
      rw [Int.floor_lt]
      push_cast
      nlinarith
    omega

theorem decaySatisfaction_isShopping (p : Pedestrian) (dt : ℚ) :
    (decaySatisfaction p dt).isShopping = p.isShopping := by
  unfold decaySatisfaction; split <;> rfl

theorem decaySatisfaction_aiType (p : Pedestrian) (dt : ℚ) :
    (decaySatisfaction p dt).aiType = p.aiType := by
  unfold decaySatisfaction; split <;> rfl

theorem decaySatisfaction_shoppingBudget (p : Pedestrian) (dt : ℚ) :
    (decaySatisfaction p dt).shoppingBudget = p.shoppingBudget := by
  unfold decaySatisfaction; split <;> rfl

theorem decaySatisfaction_shoppingProgress (p : Pedestrian) (dt : ℚ) :
    (decaySatisfaction p dt).shoppingProgress = p.shoppingProgress := by
  unfold decaySatisfaction; split <;> rfl

theorem decaySatisfaction_shoppingDuration (p : Pedestrian) (dt : ℚ) :
    (decaySatisfaction p dt).shoppingDuration = p.shoppingDuration := by
  unfold decaySatisfaction; split <;> rfl

theorem decaySatisfaction_shoppingActivity (p : Pedestrian) (dt : ℚ) :
    (decaySatisfaction p dt).shoppingActivity = p.shoppingActivity := by
  unfold decaySatisfaction; split <;> rfl

theorem decaySatisfaction_satisfaction_bounds (p : Pedestrian) (dt : ℚ)
    (h0 : 0 ≤ p.satisfactionLevel) (h1 : p.satisfactionLevel ≤ 1) (hdt : 0 ≤ dt) :
    0 ≤ (decaySatisfaction p dt).satisfactionLevel ∧
      (decaySatisfaction p dt).satisfactionLevel ≤ p.satisfactionLevel := by
  unfold decaySatisfaction
  split
  · simp only
    constructor
    · exact le_max_left 0 _
    · have : AI_PEDESTRIAN_CONFIG.satisfactionDecayRate * dt ≥ 0 := by
        unfold AI_PEDESTRIAN_CONFIG.satisfactionDecayRate
        positivity
      rw [max_le_iff]
      constructor <;> linarith
  · exact ⟨h0, le_refl _⟩

theorem startShoppingActivity_satisfactionLevel (p : Pedestrian) (grid : Grid) (d : ℚ) :
    (startShoppingActivity p grid d).satisfactionLevel = p.satisfactionLevel := by
  unfold startShoppingActivity
  cases findNearestShop (startShoppingBase p d) grid <;> rfl

theorem completeShoppingActivity_satisfaction_bounds (p : Pedestrian) (r now : ℚ)
    (h0 : 0 ≤ p.satisfactionLevel) (h1 : p.satisfactionLevel ≤ 1) :
    0 ≤ (completeShoppingActivity p r now).satisfactionLevel ∧
      (completeShoppingActivity p r now).satisfactionLevel ≤ 1 := by
  unfold completeShoppingActivity
  split
  · exact ⟨h0, h1⟩
  · simp only
    constructor
    · rw [le_min_iff]
      refine ⟨by norm_num, ?_⟩
      unfold jsOrQ AI_PEDESTRIAN_CONFIG.satisfactionGainPerPurchase
      split <;> linarith
    · exact min_le_left _ _

/-- Concrete mid-episode pedestrian used by witness theorems: budget 1000,
satisfaction 0.5, duration 10, progress 0. -/
def shoppingWitnessPedestrian : Pedestrian :=
  { tileX := 0, tileY := 0, isAI := true, aiType := some AIPedestrianType.shopper,
    isShopping := true, shoppingProgress := some 0, shoppingDuration := 10,
    currentShopX := none, currentShopY := none,
    shoppingActivity := some ShoppingActivity.browsing, shoppingBudget := some 1000,
    itemsBought := 0, shopVisitsToday := 0, lastShoppingTime := 0,
    satisfactionLevel := 1 / 2, totalMoneySpent := 0, hasBag := false }

/-- C1: completing a shopping episode draws an item count in [1,5]
(floor(r*5)+1 for a draw r in [0,1)), clamps the nominal spend
items * averageItemPrice to the remaining budget, spends at most the budget
before completion, leaves the budget non-negative, and credits exactly the
actual spend to the cumulative total spent. -/
theorem c1_completeShoppingActivity_budget_safety (p : Pedestrian) (r now : ℚ)
    (hShop : p.isShopping = true) (h0 : 0 ≤ r) (h1 : r < 1) :
    1 ≤ (completeShoppingActivity p r now).itemsBought ∧
    (completeShoppingActivity p r now).itemsBought ≤ 5 ∧
    (completeShoppingActivity p r now).shoppingBudget =
      some (jsOrOQ p.shoppingBudget 0 -
        min ((((⌊r * 5⌋ + 1 : ℤ) : ℚ)) * AI_PEDESTRIAN_CONFIG.averageItemPrice)
          (jsOrOQ p.shoppingBudget 0)) ∧
    min ((((⌊r * 5⌋ + 1 : ℤ) : ℚ)) * AI_PEDESTRIAN_CONFIG.averageItemPrice)
        (jsOrOQ p.shoppingBudget 0) ≤ jsOrOQ p.shoppingBudget 0 ∧
    0 ≤ jsOrOQ p.shoppingBudget 0 -
        min ((((⌊r * 5⌋ + 1 : ℤ) : ℚ)) * AI_PEDESTRIAN_CONFIG.averageItemPrice)
          (jsOrOQ p.shoppingBudget 0) ∧
    (completeShoppingActivity p r now).totalMoneySpent =
      jsOrQ p.totalMoneySpent 0 +
        min ((((⌊r * 5⌋ + 1 : ℤ) : ℚ)) * AI_PEDESTRIAN_CONFIG.averageItemPrice)
          (jsOrOQ p.shoppingBudget 0) := by
  obtain ⟨hi1, hi5⟩ := items_drawn_bounds h0 h1
  unfold completeShoppingActivity
  rw [hShop]
  simp only [Bool.true_eq_false, if_false]
  refine ⟨hi1, hi5, by trivial, min_le_right _ _, ?_, by trivial⟩
  have := min_le_right ((((⌊r * 5⌋ + 1 : ℤ) : ℚ)) * AI_PEDESTRIAN_CONFIG.averageItemPrice)
    (jsOrOQ p.shoppingBudget 0)
  linarith

/-- Witness for C1 at the concrete pedestrian with budget 1000 and draw 1/2:
3 items are bought, the budget drops by the actual spend 150. -/
theorem c1_witness :
    shoppingWitnessPedestrian.isShopping = true ∧ ((0 : ℚ) ≤ 1 / 2 ∧ (1 / 2 : ℚ) < 1) ∧
    1 ≤ (completeShoppingActivity shoppingWitnessPedestrian (1 / 2) 5).itemsBought ∧
    (completeShoppingActivity shoppingWitnessPedestrian (1 / 2) 5).itemsBought ≤ 5 ∧
    (completeShoppingActivity shoppingWitnessPedestrian (1 / 2) 5).shoppingBudget = some 850 := by
  have h := c1_completeShoppingActivity_budget_safety shoppingWitnessPedestrian (1 / 2) 5 rfl
    (by norm_num) (by norm_num)
  refine ⟨rfl, ⟨by norm_num, by norm_num⟩, h.1, h.2.1, ?_⟩
  rw [h.2.2.1]
  norm_num [shoppingWitnessPedestrian, jsOrOQ, jsOrQ, AI_PEDESTRIAN_CONFIG.averageItemPrice,
    min_def]

/-- C2: for an autonomous agent whose satisfaction is in [0,1] and a
non-negative tick delta, satisfaction stays in [0,1] after the tick update
(decay floored at 0, episode paths included) and after an episode completion
(bonus clamped at 1). -/
theorem c2_satisfaction_clamped (p : Pedestrian) (grid : Grid) (dt gt : ℚ) (rnd : TickRand)
    (hs0 : 0 ≤ p.satisfactionLevel) (hs1 : p.satisfactionLevel ≤ 1) (hdt : 0 ≤ dt) :
    (0 ≤ (updateAIPedestrianShopping p grid dt gt rnd).satisfactionLevel ∧
      (updateAIPedestrianShopping p grid dt gt rnd).satisfactionLevel ≤ 1) ∧
    (0 ≤ (completeShoppingActivity p rnd.itemsRand rnd.now).satisfactionLevel ∧
      (completeShoppingActivity p rnd.itemsRand rnd.now).satisfactionLevel ≤ 1) := by
  refine ⟨?_, completeShoppingActivity_satisfaction_bounds p _ _ hs0 hs1⟩
  obtain ⟨hd0, hd1⟩ := decaySatisfaction_satisfaction_bounds p dt hs0 hs1 hdt
  have hd1' : (decaySatisfaction p dt).satisfactionLevel ≤ 1 := le_trans hd1 hs1
  unfold updateAIPedestrianShopping
  split
  · exact ⟨hs0, hs1⟩
  · simp only
    split
    · split
      · exact completeShoppingActivity_satisfaction_bounds _ _ _ hd0 hd1'
      · exact ⟨hd0, hd1'⟩
    · split
      · rw [startShoppingActivity_satisfactionLevel]
        exact ⟨hd0, hd1'⟩
      · exact ⟨hd0, hd1'⟩

/-- Witness for C2 at the concrete mid-episode pedestrian, delta 1. -/
theorem c2_witness :
    ((0 : ℚ) ≤ shoppingWitnessPedestrian.satisfactionLevel ∧
      shoppingWitnessPedestrian.satisfactionLevel ≤ 1 ∧ (0 : ℚ) ≤ 1) ∧
    0 ≤ (updateAIPedestrianShopping shoppingWitnessPedestrian [] 1 0
        ⟨0, 0, 0, 0⟩).satisfactionLevel ∧
    (updateAIPedestrianShopping shoppingWitnessPedestrian [] 1 0
        ⟨0, 0, 0, 0⟩).satisfactionLevel ≤ 1 := by
  have h := c2_satisfaction_clamped shoppingWitnessPedestrian [] 1 0 ⟨0, 0, 0, 0⟩
    (by norm_num [shoppingWitnessPedestrian]) (by norm_num [shoppingWitnessPedestrian])
    (by norm_num)
  exact ⟨⟨by norm_num [shoppingWitnessPedestrian], by norm_num [shoppingWitnessPedestrian],
    by norm_num⟩, h.1.1, h.1.2⟩

/-- The tick update on the scenario pedestrian (budget 1000, satisfaction 0.5,
duration 10, progress 0) with delta 10.1 decays satisfaction to 0.399, pushes
progress to 1.01 and hands the record to completeShoppingActivity. -/
theorem scenario_update_reduction (grid : Grid) (gt : ℚ) (rnd : TickRand) :
    updateAIPedestrianShopping shoppingWitnessPedestrian grid (101 / 10) gt rnd =
      completeShoppingActivity
        { shoppingWitnessPedestrian with
          satisfactionLevel := 399 / 1000, shoppingProgress := some (101 / 100) }
        rnd.itemsRand rnd.now := by
  unfold updateAIPedestrianShopping decaySatisfaction
  norm_num [shoppingWitnessPedestrian, AI_PEDESTRIAN_CONFIG.satisfactionDecayRate, jsOrQ]

/-- C9: on the scenario agent (budget 1000, satisfaction 0.5, forced episode
of duration 10) a single tick of 10.1 seconds completes the episode, buys a
number of items in [1,5], spends exactly items * 50 (at most 1000), and leaves
satisfaction min(1, max(0, 0.5 - 0.01 * 10.1) + 0.3) = 0.699, the decay
applied before the completion bonus. -/
theorem c9_scenario_episode (grid : Grid) (gt : ℚ) (rnd : TickRand)
    (h0 : 0 ≤ rnd.itemsRand) (h1 : rnd.itemsRand < 1) :
    (updateAIPedestrianShopping shoppingWitnessPedestrian grid (101 / 10) gt rnd).isShopping
        = false ∧
    1 ≤ (updateAIPedestrianShopping shoppingWitnessPedestrian grid (101 / 10) gt rnd).itemsBought ∧
    (updateAIPedestrianShopping shoppingWitnessPedestrian grid (101 / 10) gt rnd).itemsBought ≤ 5 ∧
    (updateAIPedestrianShopping shoppingWitnessPedestrian grid (101 / 10) gt rnd).totalMoneySpent =
      (((updateAIPedestrianShopping shoppingWitnessPedestrian grid (101 / 10) gt
          rnd).itemsBought : ℚ)) * 50 ∧
    (updateAIPedestrianShopping shoppingWitnessPedestrian grid (101 / 10) gt
        rnd).totalMoneySpent ≤ 1000 ∧
    (updateAIPedestrianShopping shoppingWitnessPedestrian grid (101 / 10) gt
        rnd).satisfactionLevel = min 1 (max 0 (1 / 2 - 1 / 100 * (101 / 10)) + 3 / 10) ∧
    (updateAIPedestrianShopping shoppingWitnessPedestrian grid (101 / 10) gt
        rnd).satisfactionLevel = 699 / 1000 := by
  obtain ⟨hi1, hi5⟩ := items_drawn_bounds h0 h1
  have hitems : ((⌊rnd.itemsRand * 5⌋ + 1 : ℤ) : ℚ) * 50 ≤ 1000 := by
    have : ((⌊rnd.itemsRand * 5⌋ + 1 : ℤ) : ℚ) ≤ 5 := by exact_mod_cast hi5
    linarith
  rw [scenario_update_reduction grid gt rnd]
  unfold completeShoppingActivity
  norm_num [shoppingWitnessPedestrian, jsOrOQ, jsOrQ,
    AI_PEDESTRIAN_CONFIG.averageItemPrice, AI_PEDESTRIAN_CONFIG.satisfactionGainPerPurchase]
  refine ⟨by omega, hi5, ?_⟩
  push_cast at hitems ⊢
  linarith

/-- Witness for C9 at the item draw 0: one item, 50 spent, satisfaction
0.699. -/
theorem c9_witness :
    ((0 : ℚ) ≤ 0 ∧ (0 : ℚ) < 1) ∧
    (updateAIPedestrianShopping shoppingWitnessPedestrian [] (101 / 10) 0
        ⟨0, 0, 0, 5⟩).isShopping = false ∧
    (updateAIPedestrianShopping shoppingWitnessPedestrian [] (101 / 10) 0
        ⟨0, 0, 0, 5⟩).satisfactionLevel = 699 / 1000 := by
  have h := c9_scenario_episode [] 0 ⟨0, 0, 0, 5⟩ (by norm_num) (by norm_num)
  exact ⟨⟨by norm_num, by norm_num⟩, h.1, h.2.2.2.2.2.2⟩

/-- C10: an autonomous, not currently shopping agent whose archetype tag is
missing or whose budget is 0 or missing never triggers: shouldGoShopping is
false for every draw and the tick update leaves the agent out of any shopping
episode. -/
theorem c10_zero_budget_never_triggers (p : Pedestrian) (grid : Grid) (dt gt : ℚ)
    (rnd : TickRand) (hAI : p.isAI = true) (hNotShopping : p.isShopping = false)
    (hBlock : p.aiType = none ∨ jsTruthyOQ p.shoppingBudget = false) :
    shouldGoShopping p rnd.triggerRand = false ∧
    (updateAIPedestrianShopping p grid dt gt rnd).isShopping = false := by
  have hgo : ∀ (q : Pedestrian) (r : ℚ), q.aiType = p.aiType →
      q.shoppingBudget = p.shoppingBudget → shouldGoShopping q r = false := by
    intro q r hty hb
    unfold shouldGoShopping
    rcases hBlock with hnone | hfalsy
    · rw [hty, hnone]
    · rw [hty]
      cases hcase : p.aiType with
      | none => rfl
      | some ty =>
        rw [hb, hfalsy]
        simp
  constructor
  · exact hgo p rnd.triggerRand rfl rfl
  · unfold updateAIPedestrianShopping
    split
    · exact hNotShopping
    · simp only
      rw [if_neg, if_neg]
      · rw [decaySatisfaction_isShopping]
        exact hNotShopping
      · rw [hgo (decaySatisfaction p dt) rnd.triggerRand (decaySatisfaction_aiType p dt)
          (decaySatisfaction_shoppingBudget p dt)]
        simp
      · rw [decaySatisfaction_isShopping, hNotShopping]
        simp

/-- Witness for C10: a zero-budget idle worker never starts shopping. -/
theorem c10_witness :
    ({ shoppingWitnessPedestrian with
        isShopping := false, shoppingBudget := some 0 : Pedestrian }.isAI = true ∧
      { shoppingWitnessPedestrian with
        isShopping := false, shoppingBudget := some 0 : Pedestrian }.isShopping = false ∧
      jsTruthyOQ { shoppingWitnessPedestrian with
        isShopping := false, shoppingBudget := some 0 : Pedestrian }.shoppingBudget = false) ∧
    shouldGoShopping
      { shoppingWitnessPedestrian with isShopping := false, shoppingBudget := some 0 }
      (1 / 100) = false ∧
    (updateAIPedestrianShopping
      { shoppingWitnessPedestrian with isShopping := false, shoppingBudget := some 0 }
      [] 1 0 ⟨1 / 100, 0, 0, 0⟩).isShopping = false := by
  have h := c10_zero_budget_never_triggers
    { shoppingWitnessPedestrian with isShopping := false, shoppingBudget := some 0 }
    [] 1 0 ⟨1 / 100, 0, 0, 0⟩ rfl rfl (Or.inr (by rfl))
  exact ⟨⟨rfl, rfl, rfl⟩, h.1, h.2⟩

/-- Failing input of C3: the scenario agent mid-episode at progress 0.5,
carrying the browsing tag exactly as startShoppingActivity wrote it. -/
def c3Pedestrian : Pedestrian :=
  { shoppingWitnessPedestrian with shoppingProgress := some (1 / 2) }

/-- A tick that does not complete the running episode leaves the stored
shopping sub-state unchanged: the update never writes the paying or
carrying-bags tags. -/
theorem update_midEpisode_shoppingActivity (q : Pedestrian) (grid : Grid) (dt gt : ℚ)
    (rnd : TickRand) (hAI : q.isAI = true) (hShop : q.isShopping = true)
    (hSome : q.shoppingProgress.isSome = true)
    (hLt : q.shoppingProgress.getD 0 + dt / jsOrQ q.shoppingDuration 1 < 1) :
    (updateAIPedestrianShopping q grid dt gt rnd).shoppingActivity = q.shoppingActivity := by
  unfold updateAIPedestrianShopping
  split
  next => rfl
  next =>
    simp only
    split
    next hcond =>
      split
      next hge =>
        exfalso
        rw [decaySatisfaction_shoppingProgress, decaySatisfaction_shoppingDuration] at hge
        exact absurd hge (not_le.mpr hLt)
      next =>
        exact decaySatisfaction_shoppingActivity q dt
    next hcond =>
      exfalso
      apply hcond
      constructor
      · rw [decaySatisfaction_isShopping]
        exact hShop
      · rw [decaySatisfaction_shoppingProgress]
        exact hSome

/-- C3 (code bug): the provided code never advances the shopping sub-state
through the claimed progress bands. startShoppingActivity writes the browsing
tag, a tick that does not complete the episode leaves the tag unchanged (and
completion clears it), so at progress 0.5 - where the claimed band assignment
and the repository's implementation notes put the paying sub-state - the
mid-episode agent still carries the browsing tag and receives the browsing
offset, not the paying offset. -/
theorem c3_substate_stuck_in_browsing (p q : Pedestrian) (grid : Grid) (d dt gt : ℚ)
    (rnd : TickRand) (env : AnimEnv) (hAI : q.isAI = true) (hShop : q.isShopping = true)
    (hSome : q.shoppingProgress.isSome = true)
    (hLt : q.shoppingProgress.getD 0 + dt / jsOrQ q.shoppingDuration 1 < 1) :
    (startShoppingActivity p grid d).shoppingActivity = some ShoppingActivity.browsing ∧
    (updateAIPedestrianShopping q grid dt gt rnd).shoppingActivity = q.shoppingActivity ∧
    claimActivityForProgress (1 / 2) = ShoppingActivity.paying ∧
    claimActivityForProgress (1 / 2) ≠ ShoppingActivity.browsing ∧
    c3Pedestrian.shoppingActivity = some ShoppingActivity.browsing ∧
    getShoppingAnimationOffset env c3Pedestrian (1 / 2) = browsingOffset env (1 / 2) := by
  have hpay : claimActivityForProgress (1 / 2) = ShoppingActivity.paying := by
    unfold claimActivityForProgress
    norm_num
  have hstart : (startShoppingActivity p grid d).shoppingActivity =
      some ShoppingActivity.browsing := by
    unfold startShoppingActivity
    cases findNearestShop (startShoppingBase p d) grid <;> rfl
  refine ⟨hstart, update_midEpisode_shoppingActivity q grid dt gt rnd hAI hShop hSome hLt,
    hpay, ?_, rfl, rfl⟩
  rw [hpay]
  exact fun h => ShoppingActivity.noConfusion h

/-- Witness for C3 at the concrete mid-episode agent and a 1-second tick: the
tag stays browsing, the claimed band at progress 0.5 is paying, and the
browsing offset is the one produced. -/
theorem c3_witness :
    (c3Pedestrian.isAI = true ∧ c3Pedestrian.isShopping = true ∧
      c3Pedestrian.shoppingProgress.isSome = true ∧
      c3Pedestrian.shoppingProgress.getD 0 + 1 / jsOrQ c3Pedestrian.shoppingDuration 1 < 1) ∧
    (updateAIPedestrianShopping c3Pedestrian [] 1 0 ⟨1, 0, 0, 0⟩).shoppingActivity =
      c3Pedestrian.shoppingActivity ∧
    claimActivityForProgress (1 / 2) = ShoppingActivity.paying ∧
    getShoppingAnimationOffset ⟨fun _ => 0, fun _ => 1, 3, 0, 0⟩ c3Pedestrian (1 / 2) =
      browsingOffset ⟨fun _ => 0, fun _ => 1, 3, 0, 0⟩ (1 / 2) := by
  have hLt : c3Pedestrian.shoppingProgress.getD 0 +
      1 / jsOrQ c3Pedestrian.shoppingDuration 1 < 1 := by
    norm_num [c3Pedestrian, shoppingWitnessPedestrian, jsOrQ]
  have h := c3_substate_stuck_in_browsing c3Pedestrian c3Pedestrian [] 1 1 0 ⟨1, 0, 0, 0⟩
    ⟨fun _ => 0, fun _ => 1, 3, 0, 0⟩ rfl rfl rfl hLt
  exact ⟨⟨rfl, rfl, rfl, hLt⟩, h.2.1, h.2.2.1, h.2.2.2.2.2⟩

/-- Formalisation of the claim C4 trigger-probability formula (spec section
4.2), over explicit archetype, satisfaction and budget values:
base + (1 - satisfaction) * satisfactionWeight +
min(1, budget / maxBudget) * budgetWeight, clamped at the 0.5 ceiling. -/
def specTriggerThreshold (type : AIPedestrianType) (satisfaction budget : ℚ) : ℚ :=
  min (1 / 2)
    (getShoppingProbabilityByType type +
      (1 - satisfaction) * AI_PEDESTRIAN_CONFIG.satisfactionMultiplier +
      min 1 (budget / AI_PEDESTRIAN_CONFIG.maxBudget) * AI_PEDESTRIAN_CONFIG.budgetMultiplier)

/-- Concrete pedestrian refuting C4 as stated: worker archetype, satisfaction
exactly 0, budget 1000. -/
def c4Pedestrian : Pedestrian :=
  { shoppingWitnessPedestrian with
    isShopping := false, aiType := some AIPedestrianType.worker,
    satisfactionLevel := 0, shoppingBudget := some 1000 }

/-- Counterexample to C4 as stated: for the worker with satisfaction 0 and
budget 1000 the claimed formula gives min(0.5, 0.15 + 0.3 + 0.1) = 0.5, so a
draw of 0.45 should trigger, but the code replaces the falsy satisfaction 0
with the 0.5 default and refuses the draw (threshold 0.4). -/
theorem c4_counterexample :
    shouldGoShopping c4Pedestrian (9 / 20) = false ∧
    (9 : ℚ) / 20 <
      specTriggerThreshold AIPedestrianType.worker c4Pedestrian.satisfactionLevel 1000 := by
  constructor
  · unfold shouldGoShopping c4Pedestrian shoppingWitnessPedestrian
    norm_num [jsTruthyOQ, jsOrQ, jsOrOQ, getShoppingProbabilityByType,
      AI_PEDESTRIAN_CONFIG.satisfactionMultiplier, AI_PEDESTRIAN_CONFIG.budgetMultiplier,
      AI_PEDESTRIAN_CONFIG.maxBudget, min_def]
  · unfold specTriggerThreshold c4Pedestrian shoppingWitnessPedestrian
    norm_num [getShoppingProbabilityByType, AI_PEDESTRIAN_CONFIG.satisfactionMultiplier,
      AI_PEDESTRIAN_CONFIG.budgetMultiplier, AI_PEDESTRIAN_CONFIG.maxBudget, min_def]

/-- C4 amended: for an agent with a present archetype and truthy budget the
code triggers exactly on draws below the claimed formula evaluated at the
defaulted satisfaction (0 or missing replaced by 0.5); the threshold never
exceeds 0.5, and no draw of at least 0.5 ever triggers for any agent. -/
theorem c4_trigger_threshold (p : Pedestrian) (ty : AIPedestrianType) (r : ℚ)
    (hty : p.aiType = some ty) (hb : jsTruthyOQ p.shoppingBudget = true) :
    (shouldGoShopping p r = true ↔
      r < specTriggerThreshold ty (jsOrQ p.satisfactionLevel (1 / 2))
            (jsOrOQ p.shoppingBudget 0)) ∧
    specTriggerThreshold ty (jsOrQ p.satisfactionLevel (1 / 2)) (jsOrOQ p.shoppingBudget 0)
        ≤ 1 / 2 ∧
    (∀ (q : Pedestrian) (r2 : ℚ), 1 / 2 ≤ r2 → shouldGoShopping q r2 = false) := by
  refine ⟨?_, min_le_left _ _, ?_⟩
  · unfold shouldGoShopping specTriggerThreshold
    rw [hty, hb]
    simp
  · intro q r2 hr2
    unfold shouldGoShopping
    cases q.aiType with
    | none => rfl
    | some ty2 =>
      simp only
      split
      · rfl
      · simp only [decide_eq_false_iff_not, not_lt]
        exact le_trans (min_le_left _ _) hr2

/-- Witness for C4 amended at the worker with satisfaction 0 and budget 1000:
the draw 0.39 is below the defaulted-formula threshold 0.4 and triggers. -/
theorem c4_witness :
    (c4Pedestrian.aiType = some AIPedestrianType.worker ∧
      jsTruthyOQ c4Pedestrian.shoppingBudget = true) ∧
    (shouldGoShopping c4Pedestrian (39 / 100) = true ↔
      (39 : ℚ) / 100 < specTriggerThreshold AIPedestrianType.worker
        (jsOrQ c4Pedestrian.satisfactionLevel (1 / 2)) (jsOrOQ c4Pedestrian.shoppingBudget 0)) ∧
    shouldGoShopping c4Pedestrian (39 / 100) = true := by
  have h := c4_trigger_threshold c4Pedestrian AIPedestrianType.worker (39 / 100) rfl rfl
  refine ⟨⟨rfl, rfl⟩, h.1, ?_⟩
  rw [h.1]
  unfold specTriggerThreshold c4Pedestrian shoppingWitnessPedestrian
  norm_num [getShoppingProbabilityByType, AI_PEDESTRIAN_CONFIG.satisfactionMultiplier,
    AI_PEDESTRIAN_CONFIG.budgetMultiplier, AI_PEDESTRIAN_CONFIG.maxBudget, jsOrQ, jsOrOQ,
    min_def]

theorem intRange_eq_nil_of_le {lo hi : ℤ} (h : hi ≤ lo) : intRange lo hi = [] := by
  unfold intRange
  have : (hi - lo).toNat = 0 := by omega
  rw [this]
  rfl

/-- C8: the embedded operations of the query and behaviour engines are total
Lean functions, and on the edge inputs the spec names (zero-size or empty
grid, zero-size region, an agent outside any episode) they return the defined
empty, none, zero or unchanged results rather than failing. -/
theorem c8_edge_inputs_defined (grid : Grid) (gridSize : ℤ) (type : BuildingType)
    (dockX dockY sx sy : ℤ) (fw : List BuildingType) (ranked : List IdxTile)
    (draws : List ℕ) (maxTiles : ℕ) (searchRange : ℤ) (p : Pedestrian) (r now prog : ℚ)
    (env : AnimEnv) (hg : gridSize ≤ 0) (hp : p.isShopping = false) :
    findResidentialBuildings grid gridSize = [] ∧
    findPedestrianDestinations grid gridSize = [] ∧
    findStations grid gridSize type = [] ∧
    findFires grid gridSize = [] ∧
    findAirports grid gridSize = [] ∧
    findHeliports grid gridSize = [] ∧
    findMarinasAndPiers grid gridSize = [] ∧
    findAdjacentWaterTile grid gridSize dockX dockY = none ∧
    findSmogFactories grid gridSize = [] ∧
    findFireworkBuildings grid gridSize fw = [] ∧
    calculateTotalPopulation grid gridSize = 0 ∧
    countRoadTiles grid gridSize = 0 ∧
    findConnectedWaterTiles grid gridSize sx sy maxTiles = [] ∧
    generateTourWaypoints grid gridSize sx sy ranked draws = [] ∧
    findNearestShopR searchRange p [] = none ∧
    completeShoppingActivity p r now = p ∧
    getShoppingAnimationOffset env p prog = (0, 0) := by
  have hfc : ∀ (m : ℕ), findConnectedWaterTiles grid gridSize sx sy m = [] := by
    intro m
    unfold findConnectedWaterTiles floodFillRegion
    rw [if_pos hg]
  refine ⟨?_, ?_, ?_, ?_, ?_, ?_, ?_, ?_, ?_, ?_, ?_, ?_, hfc maxTiles, ?_, ?_, ?_, ?_⟩
  · unfold findResidentialBuildings; rw [if_pos hg]
  · unfold findPedestrianDestinations; rw [if_pos hg]
  · unfold findStations; rw [if_pos hg]
  · unfold findFires; rw [if_pos hg]
  · unfold findAirports; rw [if_pos hg]
  · unfold findHeliports; rw [if_pos hg]
  · unfold findMarinasAndPiers; rw [if_pos hg]
  · unfold findAdjacentWaterTile; rw [if_pos hg]
  · unfold findSmogFactories; rw [if_pos hg]
  · unfold findFireworkBuildings; rw [if_pos hg]
  · unfold calculateTotalPopulation; rw [if_pos hg]
  · unfold countRoadTiles; rw [if_pos hg]
  · unfold generateTourWaypoints
    rw [hfc 200]
    norm_num
  · unfold findNearestShopR shopScanCells
    have hx : intRange (max 0 (p.tileX - searchRange)) (min (([] : Grid).length : ℤ)
        (p.tileX + searchRange)) = [] := by
      apply intRange_eq_nil_of_le
      simp only [List.length_nil, Int.ofNat_zero]
      omega
    simp only [hx, List.flatMap_nil, List.foldl_nil]
  · unfold completeShoppingActivity
    rw [hp]
    rfl
  · unfold getShoppingAnimationOffset
    rw [hp]
    rfl

/-- Witness for C8 at the empty grid of size 0 and a concrete idle agent. -/
theorem c8_witness :
    ((0 : ℤ) ≤ 0 ∧
      { shoppingWitnessPedestrian with isShopping := false : Pedestrian }.isShopping = false) ∧
    findResidentialBuildings [] 0 = [] ∧
    findConnectedWaterTiles [] 0 0 0 200 = [] ∧
    generateTourWaypoints [] 0 0 0 [] [] = [] ∧
    completeShoppingActivity { shoppingWitnessPedestrian with isShopping := false } 0 0 =
      { shoppingWitnessPedestrian with isShopping := false } := by
  have h := c8_edge_inputs_defined [] 0 BuildingType.water 0 0 0 0 [] [] [] 200 10
    { shoppingWitnessPedestrian with isShopping := false } 0 0 0
    ⟨fun _ => 0, fun _ => 0, 3, 0, 0⟩ (by norm_num) rfl
  exact ⟨⟨le_refl 0, rfl⟩, h.1, h.2.2.2.2.2.2.2.2.2.2.2.2.1, h.2.2.2.2.2.2.2.2.2.2.2.2.2.1,
    h.2.2.2.2.2.2.2.2.2.2.2.2.2.2.2.1⟩

/-- The tile at the coordinate carries a commercial building type of the
findNearestShop scan. -/
def isShopCell (grid : Grid) (c : Coord) : Prop :=
  (gridCell grid c.1 c.2).building.type ∈ navCommercialTypes

instance (grid : Grid) (c : Coord) : Decidable (isShopCell grid c) := by
  unfold isShopCell; infer_instance

/-- Membership in the half-open, grid-clipped scan window of findNearestShop
(in each axis from max(0, origin - range) up to but excluding
min(grid extent, origin + range)). -/
def inScanWindow (grid : Grid) (R tx ty : ℤ) (c : Coord) : Prop :=
  max 0 (tx - R) ≤ c.1 ∧ c.1 < min (grid.length : ℤ) (tx + R) ∧
  max 0 (ty - R) ≤ c.2 ∧ c.2 < min ((grid.getD 0 []).length : ℤ) (ty + R)

instance (grid : Grid) (R tx ty : ℤ) (c : Coord) : Decidable (inScanWindow grid R tx ty c) := by
  unfold inScanWindow; infer_instance

theorem mem_shopScanCells {grid : Grid} {R tx ty : ℤ} {c : Coord} :
    c ∈ shopScanCells grid R tx ty ↔ inScanWindow grid R tx ty c := by
  unfold shopScanCells inScanWindow
  rw [List.mem_flatMap]
  constructor
  · rintro ⟨x, hx, hc⟩
    rw [List.mem_map] at hc
    obtain ⟨y, hy, rfl⟩ := hc
    rw [mem_intRange] at hx hy
    exact ⟨hx.1, hx.2, hy.1, hy.2⟩
  · rintro ⟨h1, h2, h3, h4⟩
    refine ⟨c.1, ?_, ?_⟩
    · rw [mem_intRange]; exact ⟨h1, h2⟩
    · rw [List.mem_map]
      exact ⟨c.2, by rw [mem_intRange]; exact ⟨h3, h4⟩, rfl⟩

/-- Scan invariant of findNearestShop after processing the cells S: the
running minimum never exceeds range squared, equals it while no candidate is
held, and the held candidate is a processed commercial cell realising the
minimum over all processed commercial cells. -/
def nearestInv (grid : Grid) (tx ty R : ℤ) (S : List Coord) (acc : Option Coord × ℤ) : Prop :=
  acc.2 ≤ R * R ∧
  (acc.1 = none → acc.2 = R * R) ∧
  (∀ c0, acc.1 = some c0 →
    c0 ∈ S ∧ isShopCell grid c0 ∧ shopDistSq tx ty c0 = acc.2 ∧ acc.2 < R * R) ∧
  (∀ c ∈ S, isShopCell grid c → acc.2 ≤ shopDistSq tx ty c)

theorem nearestShopStep_inv (grid : Grid) (tx ty R : ℤ) (S : List Coord)
    (acc : Option Coord × ℤ) (c : Coord) (h : nearestInv grid tx ty R S acc) :
    nearestInv grid tx ty R (S ++ [c]) (nearestShopStep grid tx ty acc c) := by
  obtain ⟨hle, hnone, hsome, hmin⟩ := h
  unfold nearestShopStep
  by_cases hshop : (gridCell grid c.1 c.2).building.type ∈ navCommercialTypes
  · rw [if_pos hshop]
    by_cases hd : shopDistSq tx ty c < acc.2
    · rw [if_pos hd]
      refine ⟨le_of_lt (lt_of_lt_of_le hd hle), fun h0 => Option.noConfusion h0, ?_, ?_⟩
      · intro c0 h0
        injection h0 with h0
        subst h0
        exact ⟨List.mem_append_right _ (List.mem_singleton_self c), hshop, rfl,
          lt_of_lt_of_le hd hle⟩
      · intro c2 hc2 hs2
        rcases List.mem_append.mp hc2 with hc2 | hc2
        · exact le_of_lt (lt_of_lt_of_le hd (hmin c2 hc2 hs2))
        · rw [List.mem_singleton] at hc2
          subst hc2
          exact le_refl _
    · rw [if_neg hd]
      refine ⟨hle, hnone, ?_, ?_⟩
      · intro c0 h0
        obtain ⟨m, s, d, l⟩ := hsome c0 h0
        exact ⟨List.mem_append_left _ m, s, d, l⟩
      · intro c2 hc2 hs2
        rcases List.mem_append.mp hc2 with hc2 | hc2
        · exact hmin c2 hc2 hs2
        · rw [List.mem_singleton] at hc2
          subst hc2
          omega
  · rw [if_neg hshop]
    refine ⟨hle, hnone, ?_, ?_⟩
    · intro c0 h0
      obtain ⟨m, s, d, l⟩ := hsome c0 h0
      exact ⟨List.mem_append_left _ m, s, d, l⟩
    · intro c2 hc2 hs2
      rcases List.mem_append.mp hc2 with hc2 | hc2
      · exact hmin c2 hc2 hs2
      · rw [List.mem_singleton] at hc2
        subst hc2
        exact absurd hs2 hshop

theorem nearestShop_fold_inv (grid : Grid) (tx ty R : ℤ) :
    ∀ (cells S : List Coord) (acc : Option Coord × ℤ),
      nearestInv grid tx ty R S acc →
      nearestInv grid tx ty R (S ++ cells) (cells.foldl (nearestShopStep grid tx ty) acc) := by
  intro cells
  induction cells with
  | nil =>
    intro S acc h
    simpa using h
  | cons c cs ih =>
    intro S acc h
    have h1 := nearestShopStep_inv grid tx ty R S acc c h
    have h2 := ih (S ++ [c]) (nearestShopStep grid tx ty acc c) h1
    rw [List.append_assoc] at h2
    simpa using h2

/-- C5 amended: findNearestShop only ever returns a commercial cell of the
half-open grid-clipped scan window (hence inside the closed claim window
[origin - range, origin + range]) whose squared distance is below range
squared and minimal among all commercial cells of that scan window; it
returns none exactly when no commercial cell of the scan window has squared
distance below range squared. -/
theorem c5_nearest_shop_amended (R : ℤ) (p : Pedestrian) (grid : Grid) :
    (∀ c, findNearestShopR R p grid = some c →
      inScanWindow grid R p.tileX p.tileY c ∧
      (p.tileX - R ≤ c.1 ∧ c.1 ≤ p.tileX + R ∧ p.tileY - R ≤ c.2 ∧ c.2 ≤ p.tileY + R) ∧
      isShopCell grid c ∧ shopDistSq p.tileX p.tileY c < R * R ∧
      (∀ c2, inScanWindow grid R p.tileX p.tileY c2 → isShopCell grid c2 →
        shopDistSq p.tileX p.tileY c ≤ shopDistSq p.tileX p.tileY c2)) ∧
    (findNearestShopR R p grid = none →
      ∀ c2, inScanWindow grid R p.tileX p.tileY c2 → isShopCell grid c2 →
        R * R ≤ shopDistSq p.tileX p.tileY c2) := by
  have base : nearestInv grid p.tileX p.tileY R [] (none, R * R) := by
    refine ⟨le_refl _, fun _ => rfl, ?_, ?_⟩
    · intro c0 h0
      exact Option.noConfusion h0
    · intro c2 hc2
      exact absurd hc2 (List.not_mem_nil c2)
  have hinv := nearestShop_fold_inv grid p.tileX p.tileY R
    (shopScanCells grid R p.tileX p.tileY) [] (none, R * R) base
  rw [List.nil_append] at hinv
  obtain ⟨hle, hnone, hsome, hmin⟩ := hinv
  constructor
  · intro c hc
    rw [findNearestShopR] at hc
    obtain ⟨hmem, hshop, hdist, hlt⟩ := hsome c hc
    have hwin := mem_shopScanCells.mp hmem
    refine ⟨hwin, ?_, hshop, by rw [hdist]; exact hlt, ?_⟩
    · obtain ⟨w1, w2, w3, w4⟩ := hwin
      constructor
      · omega
      constructor
      · omega
      constructor
      · omega
      · omega
    · intro c2 h2 hs2
      rw [hdist]
      exact hmin c2 (mem_shopScanCells.mpr h2) hs2
  · intro hn c2 h2 hs2
    rw [findNearestShopR] at hn
    rw [← hnone hn]
    exact hmin c2 (mem_shopScanCells.mpr h2) hs2

/-- Building record with the given type and inert flags, for concrete grids. -/
def plainBuilding (t : BuildingType) : Building :=
  { type := t, onFire := false, powered := true, abandoned := false,
    constructionProgress := 100, population := 0 }

/-- Tile with the given building type, for concrete grids. -/
def plainTile (t : BuildingType) : Tile := { building := plainBuilding t }

/-- One-column grid of 11 rows whose only shop sits at row 10: the shop lies
in the claim window of radius 10 around the origin but at the excluded edge of
the half-open scan window. -/
def c5Grid : Grid :=
  List.replicate 10 [plainTile BuildingType.grass] ++ [[plainTile BuildingType.shop_small]]

/-- Counterexample to C5 as stated: from the origin with the configured radius
10, the grid holds a matching commercial tile at (10, 0), inside the claimed
closed window [origin - 10, origin + 10] of both axes, yet findNearestShop
returns none (the scan loop excludes the upper edge and the running minimum
starts at radius squared with a strict comparison). -/
theorem c5_counterexample :
    findNearestShop shoppingWitnessPedestrian c5Grid = none ∧
    isShopCell c5Grid (10, 0) ∧
    shoppingWitnessPedestrian.tileX - 10 ≤ 10 ∧ 10 ≤ shoppingWitnessPedestrian.tileX + 10 ∧
    shoppingWitnessPedestrian.tileY - 10 ≤ 0 ∧ 0 ≤ shoppingWitnessPedestrian.tileY + 10 := by
  refine ⟨by decide, by decide, by decide, by decide, by decide, by decide⟩

/-- One-cell grid holding a shop at the origin. -/
def c5WitnessGrid : Grid := [[plainTile BuildingType.shop_small]]

/-- Witness for C5 amended on the one-shop grid: the shop at the origin is
returned, lies in both windows, and is minimal. -/
theorem c5_witness :
    findNearestShopR 10 shoppingWitnessPedestrian c5WitnessGrid = some (0, 0) ∧
    inScanWindow c5WitnessGrid 10 shoppingWitnessPedestrian.tileX
      shoppingWitnessPedestrian.tileY (0, 0) ∧
    isShopCell c5WitnessGrid (0, 0) ∧
    shopDistSq shoppingWitnessPedestrian.tileX shoppingWitnessPedestrian.tileY (0, 0) <
      10 * 10 := by
  have hres : findNearestShopR 10 shoppingWitnessPedestrian c5WitnessGrid = some (0, 0) := by
    decide
  have h := (c5_nearest_shop_amended 10 shoppingWitnessPedestrian c5WitnessGrid).1 (0, 0) hres
  exact ⟨hres, h.1, h.2.2.1, h.2.2.2.1⟩

/-- Loop invariant of the flood fill: the collected tiles never exceed the
cap, are pairwise distinct, are recorded visited, and are region cells
reachable from the start; every queued coordinate is the start or a neighbour
of a reachable region cell. -/
def floodInv (grid : Grid) (gridSize : ℤ) (pred : Tile → Bool) (start : Coord) (maxTiles : ℕ)
    (s : BfsState) : Prop :=
  s.tiles.length ≤ maxTiles ∧
  s.tiles.Nodup ∧
  (∀ c ∈ s.tiles, c ∈ s.visited) ∧
  (∀ c ∈ s.tiles, reachesFrom grid gridSize pred start c) ∧
  (∀ c ∈ s.queue, c = start ∨ ∃ d, reachesFrom grid gridSize pred start d ∧ c ∈ floodNeighbors d)

/-- Each pass of the flood-fill loop preserves the invariant. -/
theorem floodLoop_inv (grid : Grid) (gridSize : ℤ) (pred : Tile → Bool) (maxTiles : ℕ)
    (start : Coord) :
    ∀ (fuel : ℕ) (s : BfsState), floodInv grid gridSize pred start maxTiles s →
      floodInv grid gridSize pred start maxTiles (floodLoop grid gridSize pred maxTiles fuel s) := by
  intro fuel
  induction fuel with
  | zero => intro s h; exact h
  | succ n ih =>
    intro s h
    obtain ⟨visited, tiles, queue⟩ := s
    cases queue with
    | nil => exact h
    | cons c rest =>
      simp only [floodLoop]
      split
      · exact h
      next hlen =>
        obtain ⟨h1, h2, h3, h4, h5⟩ := h
        split
        next hvis =>
          apply ih
          exact ⟨h1, h2, h3, h4, fun c' hc' => h5 c' (List.mem_cons_of_mem c hc')⟩
        next hvis =>
          split
          next hoob =>
            apply ih
            exact ⟨h1, h2, fun c' hc' => List.mem_cons_of_mem c (h3 c' hc'), h4,
              fun c' hc' => h5 c' (List.mem_cons_of_mem c hc')⟩
          next hoob =>
            split
            next hpred =>
              apply ih
              exact ⟨h1, h2, fun c' hc' => List.mem_cons_of_mem c (h3 c' hc'), h4,
                fun c' hc' => h5 c' (List.mem_cons_of_mem c hc')⟩
            next hpred =>
              apply ih
              have hlen' : tiles.length < maxTiles := Nat.lt_of_not_le hlen
              have hcell : regionCell grid gridSize pred c := by
                constructor
                · unfold inBoundsC
                  push_neg at hoob
                  omega
                · rw [Bool.not_eq_false] at hpred
                  exact hpred
              have hreach : reachesFrom grid gridSize pred start c := by
                rcases h5 c (List.mem_cons_self c rest) with heq | ⟨d, hd, hnb⟩
                · subst heq
                  exact ⟨Relation.ReflTransGen.refl, hcell⟩
                · exact ⟨Relation.ReflTransGen.tail hd.1 ⟨hd.2, hcell, hnb⟩, hcell⟩
              have hnotin : c ∉ tiles := fun hmem => hvis (h3 c hmem)
              refine ⟨?_, ?_, ?_, ?_, ?_⟩
              · simp only [List.length_append, List.length_singleton]
                omega
              · rw [List.nodup_append]
                refine ⟨h2, List.nodup_singleton c, ?_⟩
                intro a ha hb
                rw [List.mem_singleton] at hb
                subst hb
                exact hnotin ha
              · intro c' hc'
                rcases List.mem_append.mp hc' with h' | h'
                · exact List.mem_cons_of_mem c (h3 c' h')
                · rw [List.mem_singleton] at h'
                  rw [h']
                  exact List.mem_cons_self c visited
              · intro c' hc'
                rcases List.mem_append.mp hc' with h' | h'
                · exact h4 c' h'
                · rw [List.mem_singleton] at h'
                  rw [h']
                  exact hreach
              · intro c' hc'
                rcases List.mem_append.mp hc' with h' | h'
                · exact h5 c' (List.mem_cons_of_mem c h')
                · exact Or.inr ⟨c, hreach, (List.mem_filter.mp h').1⟩

/-- C6: for every grid, start, tile predicate and cap, the flood fill returns
at most maxTiles tiles, without duplicates, and every returned tile is in
bounds, satisfies the predicate, and is reachable from the start through a
4-connected path of predicate-satisfying in-bounds tiles. -/
theorem c6_floodFillRegion_sound (grid : Grid) (gridSize : ℤ) (pred : Tile → Bool) (sx sy : ℤ) (maxTiles : ℕ) :
    (floodFillRegion grid gridSize pred sx sy maxTiles).length ≤ maxTiles ∧
    (floodFillRegion grid gridSize pred sx sy maxTiles).Nodup ∧
    ∀ c ∈ floodFillRegion grid gridSize pred sx sy maxTiles,
      inBoundsC gridSize c ∧ pred (gridCell grid c.2 c.1) = true ∧
      reachesFrom grid gridSize pred (sx, sy) c := by
  unfold floodFillRegion
  split
  · simp
  · have hinit : floodInv grid gridSize pred (sx, sy) maxTiles ⟨[], [], [(sx, sy)]⟩ := by
      refine ⟨Nat.zero_le _, List.nodup_nil, ?_, ?_, ?_⟩
      · intro c hc
        exact absurd hc (List.not_mem_nil c)
      · intro c hc
        exact absurd hc (List.not_mem_nil c)
      · intro c hc
        rw [List.mem_singleton] at hc
        exact Or.inl hc
    obtain ⟨h1, h2, h3, h4, h5⟩ := floodLoop_inv grid gridSize pred maxTiles (sx, sy)
      (floodFuel gridSize) ⟨[], [], [(sx, sy)]⟩ hinit
    refine ⟨h1, h2, ?_⟩
    intro c hc
    obtain ⟨hrt, hcell⟩ := h4 c hc
    exact ⟨hcell.1, hcell.2, hrt, hcell⟩

/-- Concrete 3x3 grid whose top row is water. -/
def c6Grid : Grid :=
  [[plainTile BuildingType.water, plainTile BuildingType.water, plainTile BuildingType.water],
   [plainTile BuildingType.grass, plainTile BuildingType.grass, plainTile BuildingType.grass],
   [plainTile BuildingType.grass, plainTile BuildingType.grass, plainTile BuildingType.grass]]

/-- Witness for C6 on the concrete grid: the collected tile (1, 0) is in
bounds, is water, and is reachable from the start (0, 0). -/
theorem c6_witness :
    (1, 0) ∈ findConnectedWaterTiles c6Grid 3 0 0 200 ∧
    inBoundsC 3 ((1 : ℤ), (0 : ℤ)) ∧ isWaterTile (gridCell c6Grid 0 1) = true ∧
    reachesFrom c6Grid 3 isWaterTile (0, 0) (1, 0) := by
  have hmem : (1, 0) ∈ findConnectedWaterTiles c6Grid 3 0 0 200 := by decide
  have h := (c6_floodFillRegion_sound c6Grid 3 isWaterTile 0 0 200).2.2 (1, 0) hmem
  exact ⟨hmem, h.1, h.2.1, h.2.2⟩

/-- Two waypoints lie at Euclidean distance at least 3 (squared tile distance
at least 9). -/
def farApart (w1 w2 : TourWaypoint) : Prop :=
  9 ≤ (w1.tileX - w2.tileX) ^ 2 + (w1.tileY - w2.tileY) ^ 2

/-- The spacing check of the spaced selection keeps accepted waypoints
pairwise at least 3 apart. -/
theorem tourStep1_pairwise (s : List TourWaypoint × List ℕ) (t : IdxTile)
    (h : s.1.Pairwise farApart) : ((tourStep1 s t).1).Pairwise farApart := by
  unfold tourStep1
  split
  · exact h
  next hfar =>
    simp only
    rw [List.pairwise_append]
    refine ⟨h, List.pairwise_singleton _ _, ?_⟩
    intro a ha b hb
    rw [List.mem_singleton] at hb
    subst hb
    have hnot : ¬ (decide (wpDistSqT t a < 9) = true) := by
      intro hd
      exact hfar (List.any_eq_true.mpr ⟨a, ha, hd⟩)
    rw [decide_eq_true_iff, not_lt] at hnot
    unfold farApart
    unfold wpDistSqT at hnot
    have h1 : (a.tileX - (mkTourWaypoint (t.x, t.y)).tileX) ^ 2 = (t.x - a.tileX) ^ 2 := by
      show (a.tileX - t.x) ^ 2 = (t.x - a.tileX) ^ 2
      ring
    have h2 : (a.tileY - (mkTourWaypoint (t.x, t.y)).tileY) ^ 2 = (t.y - a.tileY) ^ 2 := by
      show (a.tileY - t.y) ^ 2 = (t.y - a.tileY) ^ 2
      ring
    rw [h1, h2]
    exact hnot

theorem tourPhase1_fold_pairwise :
    ∀ (l : List IdxTile) (s : List TourWaypoint × List ℕ),
      s.1.Pairwise farApart → ((l.foldl tourStep1 s).1).Pairwise farApart := by
  intro l
  induction l with
  | nil => intro s h; exact h
  | cons t ts ih =>
    intro s h
    exact ih (tourStep1 s t) (tourStep1_pairwise s t h)

theorem tourStep1_len_eq (s : List TourWaypoint × List ℕ) (t : IdxTile)
    (h : s.2.length = s.1.length) : ((tourStep1 s t).2).length = ((tourStep1 s t).1).length := by
  unfold tourStep1
  split
  · exact h
  · simp only [List.length_cons, List.length_append, List.length_nil]
    omega

theorem tourStep1_len_le (s : List TourWaypoint × List ℕ) (t : IdxTile) :
    ((tourStep1 s t).1).length ≤ s.1.length + 1 := by
  unfold tourStep1
  split
  · omega
  · simp only [List.length_append, List.length_cons, List.length_nil]
    omega

theorem tourPhase1_fold_len :
    ∀ (l : List IdxTile) (s : List TourWaypoint × List ℕ),
      s.2.length = s.1.length →
      ((l.foldl tourStep1 s).2).length = ((l.foldl tourStep1 s).1).length ∧
      ((l.foldl tourStep1 s).1).length ≤ s.1.length + l.length := by
  intro l
  induction l with
  | nil =>
    intro s h
    exact ⟨h, Nat.le_add_right _ _⟩
  | cons t ts ih =>
    intro s h
    obtain ⟨ha, hb⟩ := ih (tourStep1 s t) (tourStep1_len_eq s t h)
    refine ⟨ha, le_trans hb ?_⟩
    have := tourStep1_len_le s t
    simp only [List.length_cons]
    omega

theorem tourStep2_len_eq (wt : List Coord) (numW : ℕ) (s : List TourWaypoint × List ℕ) (r : ℕ)
    (h : s.2.length = s.1.length) :
    ((tourStep2 wt numW s r).2).length = ((tourStep2 wt numW s r).1).length := by
  unfold tourStep2
  split
  · split
    · exact h
    · simp only [List.length_cons, List.length_append, List.length_nil]
      omega
  · exact h

theorem tourStep2_len_le (wt : List Coord) (numW : ℕ) (s : List TourWaypoint × List ℕ) (r : ℕ)
    (h : s.1.length ≤ numW) : ((tourStep2 wt numW s r).1).length ≤ numW := by
  unfold tourStep2
  split
  next hguard =>
    split
    · exact h
    · simp only [List.length_append, List.length_cons, List.length_nil]
      omega
  · exact h

theorem tourStep2_len_mono (wt : List Coord) (numW : ℕ) (s : List TourWaypoint × List ℕ)
    (r : ℕ) : s.1.length ≤ ((tourStep2 wt numW s r).1).length := by
  unfold tourStep2
  split
  · split
    · exact le_refl _
    · simp only [List.length_append, List.length_cons, List.length_nil]
      omega
  · exact le_refl _

theorem tourStep2_used_mono (wt : List Coord) (numW : ℕ) (s : List TourWaypoint × List ℕ)
    (r k : ℕ) (h : k ∈ s.2) : k ∈ (tourStep2 wt numW s r).2 := by
  unfold tourStep2
  split
  · split
    · exact h
    · exact List.mem_cons_of_mem r h
  · exact h

theorem tourPhase2_fold_len_eq (wt : List Coord) (numW : ℕ) :
    ∀ (draws : List ℕ) (s : List TourWaypoint × List ℕ), s.2.length = s.1.length →
      ((tourPhase2 wt numW draws s).2).length = ((tourPhase2 wt numW draws s).1).length := by
  intro draws
  induction draws with
  | nil => intro s h; exact h
  | cons r rs ih => intro s h; exact ih (tourStep2 wt numW s r) (tourStep2_len_eq wt numW s r h)

theorem tourPhase2_fold_len_le (wt : List Coord) (numW : ℕ) :
    ∀ (draws : List ℕ) (s : List TourWaypoint × List ℕ), s.1.length ≤ numW →
      ((tourPhase2 wt numW draws s).1).length ≤ numW := by
  intro draws
  induction draws with
  | nil => intro s h; exact h
  | cons r rs ih => intro s h; exact ih (tourStep2 wt numW s r) (tourStep2_len_le wt numW s r h)

theorem tourPhase2_fold_len_mono (wt : List Coord) (numW : ℕ) :
    ∀ (draws : List ℕ) (s : List TourWaypoint × List ℕ),
      s.1.length ≤ ((tourPhase2 wt numW draws s).1).length := by
  intro draws
  induction draws with
  | nil => intro s; exact le_refl _
  | cons r rs ih =>
    intro s
    exact le_trans (tourStep2_len_mono wt numW s r) (ih (tourStep2 wt numW s r))

theorem tourPhase2_fold_used_mono (wt : List Coord) (numW : ℕ) :
    ∀ (draws : List ℕ) (s : List TourWaypoint × List ℕ) (k : ℕ), k ∈ s.2 →
      k ∈ (tourPhase2 wt numW draws s).2 := by
  intro draws
  induction draws with
  | nil => intro s k h; exact h
  | cons r rs ih =>
    intro s k h
    exact ih (tourStep2 wt numW s r) k (tourStep2_used_mono wt numW s r k h)

/-- After the fill loop, every drawn index is either marked used or the loop
had already reached its stopping condition. -/
theorem tourPhase2_fold_covers (wt : List Coord) (numW : ℕ) :
    ∀ (draws : List ℕ) (s : List TourWaypoint × List ℕ) (r : ℕ), r ∈ draws →
      r ∈ (tourPhase2 wt numW draws s).2 ∨
        ¬(((tourPhase2 wt numW draws s).1).length < numW ∧
          ((tourPhase2 wt numW draws s).1).length < wt.length) := by
  intro draws
  induction draws with
  | nil =>
    intro s r h
    exact absurd h (List.not_mem_nil r)
  | cons d ds ih =>
    intro s r h
    rcases List.mem_cons.mp h with rfl | hmem
    · by_cases hguard : s.1.length < numW ∧ s.1.length < wt.length
      · left
        apply tourPhase2_fold_used_mono wt numW ds (tourStep2 wt numW s r) r
        unfold tourStep2
        rw [if_pos hguard]
        by_cases hused : r ∈ s.2
        · rw [if_pos hused]; exact hused
        · rw [if_neg hused]; exact List.mem_cons_self r s.2
      · right
        intro hfin
        apply hguard
        have hm := tourPhase2_fold_len_mono wt numW ds (tourStep2 wt numW s r)
        have hs : (tourStep2 wt numW s r).1.length = s.1.length := by
          unfold tourStep2
          rw [if_neg hguard]
        rw [hs] at hm
        exact ⟨lt_of_le_of_lt hm hfin.1, lt_of_le_of_lt hm hfin.2⟩
    · exact ih (tourStep2 wt numW s d) r hmem

/-- C7: generateTourWaypoints returns the empty list when the connected
region has fewer than 3 tiles; otherwise, for any post-sort order and any
draw sequence that covers every region index, it returns exactly
clamp(2, 6, floor(size / 10)) waypoints, hence between 2 and 6; and the
waypoints accepted by the spaced selection phase are pairwise at least 3
grid units apart (supplemental random fills exempt). -/
theorem c7_generateTourWaypoints_counts (grid : Grid) (gridSize : ℤ) (sx sy : ℤ) (ranked : List IdxTile)
    (draws : List ℕ)
    (hcov : ∀ k, k < (findConnectedWaterTiles grid gridSize sx sy 200).length → k ∈ draws) :
    ((findConnectedWaterTiles grid gridSize sx sy 200).length < 3 →
      generateTourWaypoints grid gridSize sx sy ranked draws = []) ∧
    (3 ≤ (findConnectedWaterTiles grid gridSize sx sy 200).length →
      (generateTourWaypoints grid gridSize sx sy ranked draws).length =
        min 6 (max 2 ((findConnectedWaterTiles grid gridSize sx sy 200).length / 10)) ∧
      2 ≤ (generateTourWaypoints grid gridSize sx sy ranked draws).length ∧
      (generateTourWaypoints grid gridSize sx sy ranked draws).length ≤ 6) ∧
    ((tourPhase1 (ranked.take
        (min 6 (max 2 ((findConnectedWaterTiles grid gridSize sx sy 200).length /
          10))))).1).Pairwise farApart := by
  set wt := findConnectedWaterTiles grid gridSize sx sy 200 with hwt
  set n := wt.length with hn
  set numW := min 6 (max 2 (n / 10)) with hnumW
  refine ⟨?_, ?_, ?_⟩
  · intro hsmall
    unfold generateTourWaypoints
    rw [← hwt, if_pos hsmall]
  · intro hbig
    have hgen : generateTourWaypoints grid gridSize sx sy ranked draws =
        (tourPhase2 wt numW draws (tourPhase1 (ranked.take numW))).1 := by
      unfold generateTourWaypoints
      rw [← hwt, if_neg (by omega)]
    have hnumW_le_n : numW ≤ n := by omega
    have hp1 := tourPhase1_fold_len (ranked.take numW) ([], []) rfl
    obtain ⟨hp1eq, hp1le⟩ := hp1
    have hp1le' : ((tourPhase1 (ranked.take numW)).1).length ≤ numW := by
      unfold tourPhase1
      have htake : (ranked.take numW).length ≤ numW := by
        rw [List.length_take]
        omega
      calc ((ranked.take numW).foldl tourStep1 ([], [])).1.length
          ≤ ([] : List TourWaypoint).length + (ranked.take numW).length := hp1le
        _ ≤ numW := by simp only [List.length_nil, Nat.zero_add]; exact htake
    have hfin_le := tourPhase2_fold_len_le wt numW draws (tourPhase1 (ranked.take numW)) hp1le'
    have hfin_eq := tourPhase2_fold_len_eq wt numW draws (tourPhase1 (ranked.take numW))
      (by exact hp1eq)
    have hfin : ((tourPhase2 wt numW draws (tourPhase1 (ranked.take numW))).1).length = numW := by
      by_contra hne
      have hlt : ((tourPhase2 wt numW draws (tourPhase1 (ranked.take numW))).1).length < numW :=
        lt_of_le_of_ne hfin_le hne
      have hguard : ((tourPhase2 wt numW draws (tourPhase1 (ranked.take numW))).1).length < numW ∧
          ((tourPhase2 wt numW draws (tourPhase1 (ranked.take numW))).1).length < wt.length := by
        constructor
        · exact hlt
        · omega
      have hsub : ∀ k, k < n → k ∈ (tourPhase2 wt numW draws (tourPhase1 (ranked.take numW))).2 := by
        intro k hk
        rcases tourPhase2_fold_covers wt numW draws (tourPhase1 (ranked.take numW)) k
          (hcov k hk) with hin | hnot
        · exact hin
        · exact absurd hguard hnot
      have hrange : (List.range n).toFinset ⊆
          ((tourPhase2 wt numW draws (tourPhase1 (ranked.take numW))).2).toFinset := by
        intro k hk
        rw [List.mem_toFinset, List.mem_range] at hk
        rw [List.mem_toFinset]
        exact hsub k hk
      have hcard := Finset.card_le_card hrange
      rw [List.toFinset_card_of_nodup (List.nodup_range n), List.length_range] at hcard
      have hlen2 : ((tourPhase2 wt numW draws (tourPhase1 (ranked.take numW))).2).toFinset.card ≤
          ((tourPhase2 wt numW draws (tourPhase1 (ranked.take numW))).2).length :=
        List.toFinset_card_le _
      omega
    rw [hgen]
    refine ⟨hfin, ?_, ?_⟩ <;> omega
  · exact tourPhase1_fold_pairwise (ranked.take numW) ([], []) List.Pairwise.nil

/-- Witness for C7 on the concrete grid with a 3-tile water region and the
covering draw sequence 0,1,2: exactly 2 waypoints are produced. -/
theorem c7_witness :
    (∀ k, k < (findConnectedWaterTiles c6Grid 3 0 0 200).length → k ∈ List.range 3) ∧
    3 ≤ (findConnectedWaterTiles c6Grid 3 0 0 200).length ∧
    (generateTourWaypoints c6Grid 3 0 0
        (indexTiles (findConnectedWaterTiles c6Grid 3 0 0 200)) (List.range 3)).length = 2 := by
  have hcov : ∀ k, k < (findConnectedWaterTiles c6Grid 3 0 0 200).length →
      k ∈ List.range 3 := by decide
  have hbig : 3 ≤ (findConnectedWaterTiles c6Grid 3 0 0 200).length := by decide
  have h := c7_generateTourWaypoints_counts c6Grid 3 0 0
    (indexTiles (findConnectedWaterTiles c6Grid 3 0 0 200)) (List.range 3) hcov
  obtain ⟨heq, _, _⟩ := h.2.1 hbig
  refine ⟨hcov, hbig, ?_⟩
  rw [heq]
  decide
